import Mathlib

/-!
Shallow embedding of the slot-allocation backend
(`driving-backend/server.js`, in-memory store path).

The server keeps two per-date stores: `inMemoryBookings : date -> list of
booking rows` and `inMemorySuspensions : date -> set of two-digit hour
strings`.  The route handlers `POST /admin/book`, `DELETE /admin/book`,
`POST /admin/suspend` and `GET /admin/daily` are embedded as explicit
state-passing functions on `Store`.
-/

/-- A booking row: `{ hour, student_name, permanent }` as stored in
`inMemoryBookings.get(date)`. -/
structure Booking where
  hour : String
  student_name : String
  permanent : Bool
deriving DecidableEq, Repr

/-- JS `String(x).padStart(2, "0")`: prepend zeros until the length is
at least 2. -/
def padStart2 (s : String) : String :=
  if 2 ≤ s.length then s else ⟨List.replicate (2 - s.length) '0' ++ s.data⟩

/-- `const HOURS = ["07","08","09","10","11","12","13","14","15","16","17"]`
from `server.js` (note: `"12"` is present). -/
def HOURS : List String :=
  ["07", "08", "09", "10", "11", "12", "13", "14", "15", "16", "17"]

/-- One element of the array returned by `computeSlots`. -/
structure Slot where
  hour : String
  capacity : Nat
  booked : Nat
  available : Nat
  students : List String
  permanentStudents : List String
  suspended : Bool
deriving DecidableEq, Repr

/-- `computeSlots(rows, date)` from `server.js`, with the suspended-hour
set for `date` (read from `inMemorySuspensions` in the JS) passed
explicitly. -/
def computeSlots (rows : List Booking) (suspendedHours : List String) : List Slot :=
  HOURS.map fun hour =>
    let students := rows.filter (fun r => decide (padStart2 r.hour = hour))
    { hour := hour
      capacity := 4
      booked := students.length
      available := max (4 - students.length) 0
      students := students.map (fun s => s.student_name)
      permanentStudents := (students.filter (fun s => s.permanent)).map (fun s => s.student_name)
      suspended := suspendedHours.contains hour }

/-- The server's mutable state: `inMemoryBookings` and
`inMemorySuspensions`, both keyed by date string, with `get(date) || []`
(resp. an absent `Set`) modelled as the empty list. -/
@[ext]
structure Store where
  bookings : String → List Booking
  suspensions : String → List String

/-- `inMemoryBookings.set(date, dateList)`. -/
def updateBookings (s : Store) (date : String) (dateList : List Booking) : Store :=
  { s with bookings := fun d => if d = date then dateList else s.bookings d }

/-- Writing back a date's suspension set. -/
def updateSuspensions (s : Store) (date : String) (dateSuspensions : List String) : Store :=
  { s with suspensions := fun d => if d = date then dateSuspensions else s.suspensions d }

/-- Both maps empty. -/
def emptyStore : Store where
  bookings := fun _ => []
  suspensions := fun _ => []

/-- JS `Set.add` on a date's suspension set (no duplicate is created). -/
def setAdd (l : List String) (h : String) : List String :=
  if l.contains h then l else l ++ [h]

/-- JS `Set.delete` on a date's suspension set. -/
def setDelete (l : List String) (h : String) : List String :=
  l.filter (fun x => decide (x ≠ h))

/-- The rows for `(date, hourNorm)`:
`(inMemoryBookings.get(date) || []).filter(b => String(b.hour).padStart(2,"0") === hourNorm)`. -/
def existingRows (s : Store) (date hourNorm : String) : List Booking :=
  (s.bookings date).filter (fun b => decide (padStart2 b.hour = hourNorm))

/-- Number of bookings whose hour normalizes to `hourNorm` on `date`
(the `booked` figure `computeSlots` reports). -/
def bookedCount (s : Store) (date hourNorm : String) : Nat :=
  (existingRows s date hourNorm).length

/-- The JSON body `{ success, message, slots? }` of a 200 response. -/
structure ApiResponse where
  success : Bool
  message : String
  slots : Option (List Slot)
deriving DecidableEq, Repr

/-- A handler's outcome: a 400 `Missing fields` rejection or a 200 body. -/
inductive HttpResult where
  | badRequest (message : String)
  | ok (body : ApiResponse)
deriving DecidableEq, Repr

/-- `POST /admin/book` (in-memory path): validate fields, normalize the
hour, then check suspension, capacity and duplicate in that order;
on success push the new row and return the recomputed slots. -/
def createBooking (s : Store) (date hour student_name : String) (permanent : Bool) :
    HttpResult × Store :=
  if date = "" ∨ hour = "" ∨ student_name = "" then
    (HttpResult.badRequest "Missing fields", s)
  else if (s.suspensions date).contains (padStart2 hour) then
    (HttpResult.ok ⟨false, "Slot is suspended", none⟩, s)
  else if 4 ≤ (existingRows s date (padStart2 hour)).length then
    (HttpResult.ok ⟨false, "Slot full", none⟩, s)
  else if (existingRows s date (padStart2 hour)).any
      (fun r => decide (r.student_name = student_name)) then
    (HttpResult.ok ⟨false, "Student already booked", none⟩, s)
  else
    (HttpResult.ok ⟨true, "Booking confirmed",
        some (computeSlots (s.bookings date ++ [⟨padStart2 hour, student_name, permanent⟩])
          (s.suspensions date))⟩,
     updateBookings s date (s.bookings date ++ [⟨padStart2 hour, student_name, permanent⟩]))

/-- The list that `DELETE /admin/book` stores back for `date`:
`dateList.filter(b => !(norm(b.hour) === hourNorm && b.student_name === student_name))`. -/
def deleteFilter (l : List Booking) (hourNorm student_name : String) : List Booking :=
  l.filter (fun b => decide (¬(padStart2 b.hour = hourNorm ∧ b.student_name = student_name)))

/-- `DELETE /admin/book` (in-memory path): validate fields, filter the
matching row out, and return the recomputed slots; always succeeds. -/
def deleteBooking (s : Store) (date hour student_name : String) :
    HttpResult × Store :=
  if date = "" ∨ hour = "" ∨ student_name = "" then
    (HttpResult.badRequest "Missing fields", s)
  else
    (HttpResult.ok ⟨true, "Deleted booking",
        some (computeSlots (deleteFilter (s.bookings date) (padStart2 hour) student_name)
          (s.suspensions date))⟩,
     updateBookings s date (deleteFilter (s.bookings date) (padStart2 hour) student_name))

/-- `POST /admin/suspend`: validate fields; for `action === "suspend"`
reject when the slot has students; then add/remove the hour for the two
known actions (any other action changes nothing) and report success. -/
def setSuspension (s : Store) (date slotId action : String) :
    HttpResult × Store :=
  if slotId = "" ∨ action = "" ∨ date = "" then
    (HttpResult.badRequest "Missing fields", s)
  else if action = "suspend" ∧ 0 < (existingRows s date (padStart2 slotId)).length then
    (HttpResult.ok ⟨false, "Cannot suspend slot with existing students", none⟩, s)
  else
    (HttpResult.ok ⟨true, "Slot " ++ action ++ "ed successfully", none⟩,
     updateSuspensions s date
       (if action = "suspend" then setAdd (s.suspensions date) (padStart2 slotId)
        else if action = "unsuspend" then setDelete (s.suspensions date) (padStart2 slotId)
        else s.suspensions date))

/-- `GET /admin/daily`: validate the date and return `computeSlots` of
the date's rows; never writes either store. -/
def getDaily (s : Store) (date : String) : Except String (List Slot) × Store :=
  if date = "" then (Except.error "Missing date", s)
  else (Except.ok (computeSlots (s.bookings date) (s.suspensions date)), s)

/-- One admin request, for reasoning about request sequences. -/
inductive Op where
  | create (date hour student_name : String) (permanent : Bool)
  | delete (date hour student_name : String)
  | suspend (date slotId action : String)

/-- The state after handling one request. -/
def applyOp (s : Store) : Op → Store
  | Op.create d h n p => (createBooking s d h n p).2
  | Op.delete d h n => (deleteBooking s d h n).2
  | Op.suspend d sl a => (setSuspension s d sl a).2

/-- The state after handling a sequence of requests. -/
def applyOps (s : Store) (ops : List Op) : Store := ops.foldl applyOp s

/-- A store with two bookings at hour "09" and hour "07" suspended on
2025-01-06; used to evaluate the handlers at concrete inputs. -/
def demoStore : Store where
  bookings := fun d =>
    if d = "2025-01-06" then [⟨"09", "Alice", false⟩, ⟨"09", "Bob", true⟩] else []
  suspensions := fun d => if d = "2025-01-06" then ["07"] else []

/-- A store whose hour "18" (outside `HOURS`) already has four bookings
on 2025-01-06. -/
def full18Store : Store where
  bookings := fun d =>
    if d = "2025-01-06" then
      [⟨"18", "Alice", false⟩, ⟨"18", "Bob", false⟩,
       ⟨"18", "Carol", false⟩, ⟨"18", "Dave", false⟩]
    else []
  suspensions := fun _ => []

/-! ### Helper lemmas -/

theorem padStart2_of_ge (t : String) (h : 2 ≤ t.length) : padStart2 t = t := by
  unfold padStart2
  rw [if_pos h]

theorem padStart2_length (s : String) : 2 ≤ (padStart2 s).length := by
  unfold padStart2
  split
  · assumption
  · next h =>
    have hdata : s.data.length = s.length := rfl
    have hlen : (String.mk (List.replicate (2 - s.length) '0' ++ s.data)).length
        = (List.replicate (2 - s.length) '0' ++ s.data).length := rfl
    rw [hlen, List.length_append, List.length_replicate]
    omega

theorem padStart2_idem (s : String) : padStart2 (padStart2 s) = padStart2 s :=
  padStart2_of_ge _ (padStart2_length s)

theorem updateBookings_bookings (s : Store) (date : String) (l : List Booking) (d : String) :
    (updateBookings s date l).bookings d = if d = date then l else s.bookings d := rfl

theorem updateBookings_suspensions (s : Store) (date : String) (l : List Booking) :
    (updateBookings s date l).suspensions = s.suspensions := rfl

theorem updateSuspensions_suspensions (s : Store) (date : String) (l : List String)
    (d : String) :
    (updateSuspensions s date l).suspensions d = if d = date then l else s.suspensions d := rfl

theorem updateSuspensions_bookings (s : Store) (date : String) (l : List String) :
    (updateSuspensions s date l).bookings = s.bookings := rfl

theorem updateBookings_self (s : Store) (date : String) :
    updateBookings s date (s.bookings date) = s := by
  ext d
  · rw [updateBookings_bookings]
    by_cases hdd : d = date
    · rw [if_pos hdd, hdd]
    · rw [if_neg hdd]
  · rw [updateBookings_suspensions]

theorem updateSuspensions_self (s : Store) (date : String) :
    updateSuspensions s date (s.suspensions date) = s := by
  ext d
  · rw [updateSuspensions_bookings]
  · rw [updateSuspensions_suspensions]
    by_cases hdd : d = date
    · rw [if_pos hdd, hdd]
    · rw [if_neg hdd]

/-! ### Claim theorems -/

/-- C1: the claim says hour "12" never appears in any returned slot
list; evaluating the code at the failing input shows the opposite: on
the empty store `GET /admin/daily?date=2025-01-06` returns
`computeSlots [] []`, whose hours include "12" (because `HOURS`
contains "12"), and `POST /admin/book` even accepts a booking at hour
"12" — contradicting the repository README, which reserves
12:00–13:00 for theory. -/
theorem hour12_in_daily_slots :
    (getDaily emptyStore "2025-01-06").1 = Except.ok (computeSlots [] []) ∧
      "12" ∈ (computeSlots ([] : List Booking) ([] : List String)).map Slot.hour ∧
      (createBooking emptyStore "2025-01-06" "12" "Al" false).1
        = HttpResult.ok ⟨true, "Booking confirmed",
            some (computeSlots [⟨"12", "Al", false⟩] [])⟩ := by
  refine ⟨rfl, by decide, by decide⟩

/-- C8: `computeSlots` is deterministic in its declared inputs (the
booking rows and the suspended-hour set), and `GET /admin/daily` leaves
the store untouched. -/
theorem computeSlots_pure (rows₁ rows₂ : List Booking) (susp₁ susp₂ : List String)
    (s : Store) (date : String) (hrows : rows₁ = rows₂) (hsusp : susp₁ = susp₂) :
    computeSlots rows₁ susp₁ = computeSlots rows₂ susp₂ ∧ (getDaily s date).2 = s := by
  subst hrows
  subst hsusp
  refine ⟨rfl, ?_⟩
  unfold getDaily
  split <;> rfl

/-- Witness for C8 at concrete inputs. -/
theorem computeSlots_pure_witness :
    computeSlots [⟨"09", "Alice", false⟩] ["07"] = computeSlots [⟨"09", "Alice", false⟩] ["07"]
      ∧ (getDaily demoStore "2025-01-06").2 = demoStore :=
  computeSlots_pure [⟨"09", "Alice", false⟩] [⟨"09", "Alice", false⟩] ["07"] ["07"]
    demoStore "2025-01-06" rfl rfl

/-- C10: `POST /admin/suspend` with an action other than "suspend" and
"unsuspend" reports `Slot <action>ed successfully` and changes nothing:
the store after the call is the store before it. -/
theorem setSuspension_unknown_action (s : Store) (date slotId action : String)
    (hd : date ≠ "") (hs : slotId ≠ "") (ha : action ≠ "")
    (h1 : action ≠ "suspend") (h2 : action ≠ "unsuspend") :
    setSuspension s date slotId action
      = (HttpResult.ok ⟨true, "Slot " ++ action ++ "ed successfully", none⟩, s) := by
  have hval : ¬(slotId = "" ∨ action = "" ∨ date = "") := by
    rintro (h | h | h)
    · exact hs h
    · exact ha h
    · exact hd h
  have hc : ¬(action = "suspend" ∧ 0 < (existingRows s date (padStart2 slotId)).length) :=
    fun h => h1 h.1
  unfold setSuspension
  rw [if_neg hval, if_neg hc, if_neg h1, if_neg h2, updateSuspensions_self]

/-- Witness for C10 at a concrete unknown action. -/
theorem setSuspension_unknown_action_witness :
    setSuspension emptyStore "2025-01-06" "09" "toggle"
      = (HttpResult.ok ⟨true, "Slot toggleed successfully", none⟩, emptyStore) :=
  setSuspension_unknown_action emptyStore "2025-01-06" "09" "toggle"
    (by decide) (by decide) (by decide) (by decide) (by decide)

/-- C6: every slot emitted by `computeSlots` carries capacity 4, the
count/names/permanent-names of the rows whose hour normalizes to the
slot's hour, `available = max (4 - booked) 0`, and the suspension flag
is membership of the slot's hour in the suspended-hour set. -/
theorem computeSlots_fields (rows : List Booking) (suspendedHours : List String)
    (slot : Slot) (hmem : slot ∈ computeSlots rows suspendedHours) :
    slot.capacity = 4 ∧
      slot.booked = (rows.filter (fun r => decide (padStart2 r.hour = slot.hour))).length ∧
      slot.available = max (4 - slot.booked) 0 ∧
      slot.students = (rows.filter (fun r => decide (padStart2 r.hour = slot.hour))).map
        (fun s => s.student_name) ∧
      slot.permanentStudents =
        ((rows.filter (fun r => decide (padStart2 r.hour = slot.hour))).filter
          (fun s => s.permanent)).map (fun s => s.student_name) ∧
      (slot.suspended = true ↔ slot.hour ∈ suspendedHours) := by
  unfold computeSlots at hmem
  obtain ⟨h, hh, rfl⟩ := List.mem_map.mp hmem
  refine ⟨rfl, rfl, rfl, rfl, rfl, ?_⟩
  exact List.elem_iff

/-- Witness for C6 at the first slot of the empty day. -/
theorem computeSlots_fields_witness :
    (Slot.mk "07" 4 0 4 [] [] false).booked
      = (([] : List Booking).filter
          (fun r => decide (padStart2 r.hour = (Slot.mk "07" 4 0 4 [] [] false).hour))).length :=
  (computeSlots_fields [] [] (Slot.mk "07" 4 0 4 [] [] false) (by decide)).2.1

/-- C3: `POST /admin/book` (with all fields present) checks suspension,
then fullness, then duplication, in that order, and succeeds when none
applies; in particular a suspended hour that is also full reports
"Slot is suspended". -/
theorem createBooking_check_order (s : Store) (date hour name : String) (p : Bool)
    (hd : date ≠ "") (hh : hour ≠ "") (hn : name ≠ "") :
    ((s.suspensions date).contains (padStart2 hour) = true →
        (createBooking s date hour name p).1
          = HttpResult.ok ⟨false, "Slot is suspended", none⟩) ∧
      ((s.suspensions date).contains (padStart2 hour) = false →
        4 ≤ (existingRows s date (padStart2 hour)).length →
        (createBooking s date hour name p).1 = HttpResult.ok ⟨false, "Slot full", none⟩) ∧
      ((s.suspensions date).contains (padStart2 hour) = false →
        (existingRows s date (padStart2 hour)).length < 4 →
        (existingRows s date (padStart2 hour)).any
          (fun r => decide (r.student_name = name)) = true →
        (createBooking s date hour name p).1
          = HttpResult.ok ⟨false, "Student already booked", none⟩) ∧
      ((s.suspensions date).contains (padStart2 hour) = false →
        (existingRows s date (padStart2 hour)).length < 4 →
        (existingRows s date (padStart2 hour)).any
          (fun r => decide (r.student_name = name)) = false →
        (createBooking s date hour name p).1
          = HttpResult.ok ⟨true, "Booking confirmed",
              some (computeSlots (s.bookings date ++ [⟨padStart2 hour, name, p⟩])
                (s.suspensions date))⟩) := by
  have hval : ¬(date = "" ∨ hour = "" ∨ name = "") := by
    rintro (h | h | h)
    · exact hd h
    · exact hh h
    · exact hn h
  refine ⟨?_, ?_, ?_, ?_⟩
  · intro hsusp
    unfold createBooking
    rw [if_neg hval, if_pos hsusp]
  · intro hsusp hfull
    unfold createBooking
    rw [if_neg hval, if_neg (by rw [hsusp]; exact Bool.false_ne_true), if_pos hfull]
  · intro hsusp hfull hdup
    unfold createBooking
    rw [if_neg hval, if_neg (by rw [hsusp]; exact Bool.false_ne_true),
      if_neg (Nat.not_le.mpr hfull), if_pos hdup]
  · intro hsusp hfull hdup
    unfold createBooking
    rw [if_neg hval, if_neg (by rw [hsusp]; exact Bool.false_ne_true),
      if_neg (Nat.not_le.mpr hfull), if_neg (by rw [hdup]; exact Bool.false_ne_true)]

/-- Witness for C3: on a store where hour "07" is suspended, booking
hour "7" fails with "Slot is suspended". -/
theorem createBooking_check_order_witness :
    (createBooking demoStore "2025-01-06" "7" "Eve" false).1
      = HttpResult.ok ⟨false, "Slot is suspended", none⟩ :=
  (createBooking_check_order demoStore "2025-01-06" "7" "Eve" false
    (by decide) (by decide) (by decide)).1 (by decide)

/-- C4: whenever `POST /admin/book` fails (suspended, full or duplicate
student), the store after the call is exactly the store before it. -/
theorem createBooking_error_no_mutation (s : Store) (date hour name : String) (p : Bool)
    (hd : date ≠ "") (hh : hour ≠ "") (hn : name ≠ "") :
    ((s.suspensions date).contains (padStart2 hour) = true →
        (createBooking s date hour name p).2 = s) ∧
      (4 ≤ (existingRows s date (padStart2 hour)).length →
        (createBooking s date hour name p).2 = s) ∧
      ((existingRows s date (padStart2 hour)).any
          (fun r => decide (r.student_name = name)) = true →
        (createBooking s date hour name p).2 = s) := by
  have hval : ¬(date = "" ∨ hour = "" ∨ name = "") := by
    rintro (h | h | h)
    · exact hd h
    · exact hh h
    · exact hn h
  refine ⟨?_, ?_, ?_⟩
  · intro hsusp
    unfold createBooking
    rw [if_neg hval, if_pos hsusp]
  · intro hfull
    unfold createBooking
    rw [if_neg hval]
    by_cases hsusp : (s.suspensions date).contains (padStart2 hour) = true
    · rw [if_pos hsusp]
    · rw [if_neg hsusp, if_pos hfull]
  · intro hdup
    unfold createBooking
    rw [if_neg hval]
    by_cases hsusp : (s.suspensions date).contains (padStart2 hour) = true
    · rw [if_pos hsusp]
    · rw [if_neg hsusp]
      by_cases hfull : 4 ≤ (existingRows s date (padStart2 hour)).length
      · rw [if_pos hfull]
      · rw [if_neg hfull, if_pos hdup]

/-- Witness for C4: booking "Alice" again at "2025-01-06" hour "9"
(where she is already booked) leaves the store unchanged. -/
theorem createBooking_error_no_mutation_witness :
    (createBooking demoStore "2025-01-06" "9" "Alice" false).2 = demoStore :=
  (createBooking_error_no_mutation demoStore "2025-01-06" "9" "Alice" false
    (by decide) (by decide) (by decide)).2.2 (by decide)

/-- C5: `POST /admin/suspend` with action "suspend" on an hour that has
at least one booking fails with "Cannot suspend slot with existing
students" and returns the store unchanged (in particular no suspension
is added). -/
theorem setSuspension_nonempty_fails (s : Store) (date slotId : String)
    (hd : date ≠ "") (hs : slotId ≠ "")
    (hne : 0 < (existingRows s date (padStart2 slotId)).length) :
    setSuspension s date slotId "suspend"
      = (HttpResult.ok ⟨false, "Cannot suspend slot with existing students", none⟩, s) := by
  have hval : ¬(slotId = "" ∨ ("suspend" : String) = "" ∨ date = "") := by
    rintro (h | h | h)
    · exact hs h
    · exact absurd h (by decide)
    · exact hd h
  unfold setSuspension
  rw [if_neg hval, if_pos ⟨rfl, hne⟩]

/-- Witness for C5: suspending hour "9" (which holds Alice and Bob)
fails and leaves the store as it was. -/
theorem setSuspension_nonempty_fails_witness :
    setSuspension demoStore "2025-01-06" "9" "suspend"
      = (HttpResult.ok ⟨false, "Cannot suspend slot with existing students", none⟩,
        demoStore) :=
  setSuspension_nonempty_fails demoStore "2025-01-06" "9" (by decide) (by decide) (by decide)

theorem deleteFilter_idem (l : List Booking) (hourNorm name : String) :
    deleteFilter (deleteFilter l hourNorm name) hourNorm name = deleteFilter l hourNorm name := by
  unfold deleteFilter
  rw [List.filter_filter]
  simp

theorem updateBookings_updateBookings (s : Store) (date : String)
    (l₁ l₂ : List Booking) :
    updateBookings (updateBookings s date l₁) date l₂ = updateBookings s date l₂ := by
  ext d
  · rw [updateBookings_bookings, updateBookings_bookings, updateBookings_bookings]
    by_cases hdd : d = date
    · rw [if_pos hdd, if_pos hdd]
    · rw [if_neg hdd, if_neg hdd, if_neg hdd]
  · rfl

/-- C7: deleting a booking that does not exist succeeds, returns the
recomputed (unchanged) slot list and leaves the store unchanged; and
`DELETE /admin/book` is idempotent on the store in general. -/
theorem deleteBooking_noop_idempotent (s : Store) (date hour name : String)
    (hd : date ≠ "") (hh : hour ≠ "") (hn : name ≠ "")
    (habsent : ∀ b ∈ s.bookings date,
      ¬(padStart2 b.hour = padStart2 hour ∧ b.student_name = name)) :
    deleteBooking s date hour name
      = (HttpResult.ok ⟨true, "Deleted booking",
          some (computeSlots (s.bookings date) (s.suspensions date))⟩, s) ∧
      (deleteBooking (deleteBooking s date hour name).2 date hour name).2
        = (deleteBooking s date hour name).2 := by
  have hval : ¬(date = "" ∨ hour = "" ∨ name = "") := by
    rintro (h | h | h)
    · exact hd h
    · exact hh h
    · exact hn h
  have hsnd : ∀ t : Store, (deleteBooking t date hour name).2
      = updateBookings t date (deleteFilter (t.bookings date) (padStart2 hour) name) := by
    intro t
    unfold deleteBooking
    rw [if_neg hval]
  constructor
  · have hfilter : deleteFilter (s.bookings date) (padStart2 hour) name = s.bookings date := by
      unfold deleteFilter
      apply List.filter_eq_self.mpr
      intro b hb
      exact decide_eq_true (habsent b hb)
    unfold deleteBooking
    rw [if_neg hval, hfilter, updateBookings_self]
  · rw [hsnd, hsnd]
    rw [updateBookings_bookings, if_pos rfl, deleteFilter_idem,
      updateBookings_updateBookings]

/-- Witness for C7: deleting the absent booking ("2025-01-06", "10",
"Zoe") on the demo store succeeds and changes nothing. -/
theorem deleteBooking_noop_idempotent_witness :
    deleteBooking demoStore "2025-01-06" "10" "Zoe"
      = (HttpResult.ok ⟨true, "Deleted booking",
          some (computeSlots (demoStore.bookings "2025-01-06")
            (demoStore.suspensions "2025-01-06"))⟩, demoStore) :=
  (deleteBooking_noop_idempotent demoStore "2025-01-06" "10" "Zoe"
    (by decide) (by decide) (by decide) (by decide)).1

theorem computeSlots_append_not_hours (l : List Booking) (b : Booking)
    (susp : List String) (hb : padStart2 b.hour ∉ HOURS) :
    computeSlots (l ++ [b]) susp = computeSlots l susp := by
  unfold computeSlots
  apply List.map_congr_left
  intro h hh
  have hne : decide (padStart2 b.hour = h) = false :=
    decide_eq_false (fun he => hb (he ▸ hh))
  have hfilter : (l ++ [b]).filter (fun r => decide (padStart2 r.hour = h))
      = l.filter (fun r => decide (padStart2 r.hour = h)) := by
    rw [List.filter_append]
    simp [List.filter, hne]
  dsimp only
  rw [hfilter]

/-- C9 counterexample to the claim as stated: on a store that already
holds four bookings at ("2025-01-06", "18") by other students — so
there is no suspension and no prior booking for the exact
(day, hour, student) triple — `CreateBooking` for "Eve" at hour "18"
does not succeed: it fails with "Slot full" and inserts nothing. -/
theorem createBooking_hour18_full_counterexample :
    padStart2 "18" ∉ HOURS ∧
      (full18Store.suspensions "2025-01-06").contains (padStart2 "18") = false ∧
      (full18Store.bookings "2025-01-06").any
        (fun b => decide (padStart2 b.hour = padStart2 "18" ∧ b.student_name = "Eve"))
        = false ∧
      (createBooking full18Store "2025-01-06" "18" "Eve" false).1
        = HttpResult.ok ⟨false, "Slot full", none⟩ ∧
      (createBooking full18Store "2025-01-06" "18" "Eve" false).2.bookings "2025-01-06"
        = full18Store.bookings "2025-01-06" :=
  ⟨by decide, by decide, by decide, by decide, by decide⟩

/-- C9 (amended): `POST /admin/book` never validates the hour against
`HOURS`: when the slot is not suspended, has fewer than 4 bookings and
no duplicate name, the booking succeeds and is appended even for an
hour outside `HOURS` — and such a booking is invisible, since appending
a row whose normalized hour is outside `HOURS` leaves every
`computeSlots` output unchanged. -/
theorem createBooking_no_hour_validation (s : Store) (date hour name : String) (p : Bool)
    (hd : date ≠ "") (hh : hour ≠ "") (hn : name ≠ "")
    (hsusp : (s.suspensions date).contains (padStart2 hour) = false)
    (hfull : (existingRows s date (padStart2 hour)).length < 4)
    (hdup : (existingRows s date (padStart2 hour)).any
      (fun r => decide (r.student_name = name)) = false) :
    (createBooking s date hour name p).1
        = HttpResult.ok ⟨true, "Booking confirmed",
            some (computeSlots (s.bookings date ++ [⟨padStart2 hour, name, p⟩])
              (s.suspensions date))⟩ ∧
      (createBooking s date hour name p).2.bookings date
        = s.bookings date ++ [⟨padStart2 hour, name, p⟩] ∧
      (∀ suspSet : List String, padStart2 hour ∉ HOURS →
        computeSlots ((createBooking s date hour name p).2.bookings date) suspSet
          = computeSlots (s.bookings date) suspSet) := by
  have hval : ¬(date = "" ∨ hour = "" ∨ name = "") := by
    rintro (h | h | h)
    · exact hd h
    · exact hh h
    · exact hn h
  have hpair : createBooking s date hour name p
      = (HttpResult.ok ⟨true, "Booking confirmed",
          some (computeSlots (s.bookings date ++ [⟨padStart2 hour, name, p⟩])
            (s.suspensions date))⟩,
        updateBookings s date (s.bookings date ++ [⟨padStart2 hour, name, p⟩])) := by
    unfold createBooking
    rw [if_neg hval, if_neg (by rw [hsusp]; exact Bool.false_ne_true),
      if_neg (Nat.not_le.mpr hfull), if_neg (by rw [hdup]; exact Bool.false_ne_true)]
  have hget : (createBooking s date hour name p).2.bookings date
      = s.bookings date ++ [⟨padStart2 hour, name, p⟩] := by
    rw [hpair, updateBookings_bookings, if_pos rfl]
  refine ⟨by rw [hpair], hget, ?_⟩
  intro suspSet hout
  rw [hget]
  exact computeSlots_append_not_hours _ _ _ (by rw [padStart2_idem]; exact hout)

/-- Witness for C9 (amended): booking "Eve" at hour "18" on the empty
day succeeds, and the resulting row list yields the same slot list as
the empty row list. -/
theorem bookedCount_updateBookings_append (s : Store) (date hb nm : String) (p : Bool)
    (d K : String) :
    bookedCount (updateBookings s date (s.bookings date ++ [⟨hb, nm, p⟩])) d K
      = bookedCount s d K + (if d = date ∧ padStart2 hb = K then 1 else 0) := by
  unfold bookedCount existingRows
  rw [updateBookings_bookings]
  by_cases hdd : d = date
  · subst hdd
    rw [if_pos rfl, List.filter_append, List.length_append]
    by_cases hK : padStart2 hb = K
    · rw [if_pos ⟨rfl, hK⟩]
      congr 1
      simp [List.filter_singleton, hK]
    · rw [if_neg (fun hc => hK hc.2)]
      have hsingle : ([(⟨hb, nm, p⟩ : Booking)]).filter
          (fun x => decide (padStart2 x.hour = K)) = [] := by
        simp [List.filter_singleton, hK]
      rw [hsingle]
      rfl
  · rw [if_neg hdd, if_neg (fun hc => hdd hc.1)]
    omega

theorem bookedCount_create_le {s : Store} (hs : ∀ d K, bookedCount s d K ≤ 4)
    (date hour name : String) (p : Bool) (d K : String) :
    bookedCount (createBooking s date hour name p).2 d K ≤ 4 := by
  unfold createBooking
  split
  · exact hs d K
  split
  · exact hs d K
  split
  · exact hs d K
  split
  · exact hs d K
  rename_i hval hsusp hfull hdup
  show bookedCount
    (updateBookings s date (s.bookings date ++ [⟨padStart2 hour, name, p⟩])) d K ≤ 4
  rw [bookedCount_updateBookings_append, padStart2_idem]
  have hlt : bookedCount s date (padStart2 hour) < 4 := Nat.lt_of_not_le hfull
  by_cases hdd : d = date
  · by_cases hK : padStart2 hour = K
    · rw [if_pos ⟨hdd, hK⟩]
      subst hdd
      subst hK
      omega
    · rw [if_neg (fun hc => hK hc.2)]
      have := hs d K
      omega
  · rw [if_neg (fun hc => hdd hc.1)]
    have := hs d K
    omega

theorem bookedCount_delete_le {s : Store} (hs : ∀ d K, bookedCount s d K ≤ 4)
    (date hour name : String) (d K : String) :
    bookedCount (deleteBooking s date hour name).2 d K ≤ 4 := by
  unfold deleteBooking
  split
  · exact hs d K
  show bookedCount
    (updateBookings s date (deleteFilter (s.bookings date) (padStart2 hour) name)) d K ≤ 4
  unfold bookedCount existingRows
  rw [updateBookings_bookings]
  by_cases hdd : d = date
  · rw [if_pos hdd]
    subst hdd
    refine le_trans ?_ (hs d K)
    exact (List.Sublist.filter _ (List.filter_sublist _)).length_le
  · rw [if_neg hdd]
    exact hs d K

theorem bookedCount_suspend_eq (s : Store) (date slotId action : String) (d K : String) :
    bookedCount (setSuspension s date slotId action).2 d K = bookedCount s d K := by
  unfold setSuspension
  split
  · rfl
  split
  · rfl
  · rfl

theorem bookedCount_applyOp_le {s : Store} (hs : ∀ d K, bookedCount s d K ≤ 4)
    (op : Op) (d K : String) : bookedCount (applyOp s op) d K ≤ 4 := by
  cases op with
  | create date hour name p => exact bookedCount_create_le hs date hour name p d K
  | delete date hour name => exact bookedCount_delete_le hs date hour name d K
  | suspend date slotId action =>
    show bookedCount (setSuspension s date slotId action).2 d K ≤ 4
    rw [bookedCount_suspend_eq]
    exact hs d K

/-- C2: starting from the empty store, after any finite sequence of
requests (bookings, deletions, suspensions) the number of bookings
whose hour normalizes to a given hour on a given day never exceeds 4. -/
theorem capacity_invariant (ops : List Op) (date hourNorm : String) :
    bookedCount (applyOps emptyStore ops) date hourNorm ≤ 4 := by
  suffices h : ∀ s : Store, (∀ d K, bookedCount s d K ≤ 4) →
      ∀ d K, bookedCount (applyOps s ops) d K ≤ 4 by
    refine h emptyStore (fun d K => ?_) date hourNorm
    show ((existingRows emptyStore d K).length) ≤ 4
    simp [existingRows, emptyStore]
  induction ops with
  | nil => exact fun s hs => hs
  | cons op rest ih =>
    intro s hs
    exact ih (applyOp s op) (fun d K => bookedCount_applyOp_le hs op d K)

theorem createBooking_no_hour_validation_witness :
    computeSlots ((createBooking emptyStore "2025-01-06" "18" "Eve" false).2.bookings
        "2025-01-06") []
      = computeSlots (emptyStore.bookings "2025-01-06") [] :=
  (createBooking_no_hour_validation emptyStore "2025-01-06" "18" "Eve" false
    (by decide) (by decide) (by decide) (by decide) (by decide) (by decide)).2.2
    [] (by decide)
